import Mathlib

set_option maxRecDepth 100000

/-!
Shallow embedding of the Duke-Slurm operator scripts:
`scripts/install_conda.py`, `scripts/setup_conda.py` and
`bin/install_requirements.py`.

The filesystem is modelled as a map from path strings to optional file
contents (`none` = the path does not exist).  External-process execution is
modelled by oracles (`String → Bool` for shell commands, `List String → Bool`
for argv-style commands) that say whether a given command exits with status 0.
Python string interpolation becomes Lean string append, and the Python `in`
substring test becomes `containsSub`.
-/

/-- Python `needle in haystack` substring test on strings. -/
def containsSub (needle haystack : String) : Bool :=
  decide (needle.data <:+: haystack.data)

/-- Python `os.path.expanduser`: replace a leading `~/` with the home
directory.  Only `~/`-prefixed templates occur in these scripts. -/
def expanduser (home path : String) : String :=
  if path.take 2 = "~/" then home ++ path.drop 1 else path

/-- Filesystem model: path → file content, `none` when the path is absent. -/
abbrev Fs := String → Option String

/-- `os.path.exists` on the filesystem model. -/
def fsExists (fs : Fs) (p : String) : Bool := (fs p).isSome

/-- Outcome of one CLI process: its exit status, whether the script's own
error handler printed a diagnostic, and whether an exception escaped the
entry point uncaught (in which case the interpreter prints a traceback and
exits with status 1). -/
structure Outcome where
  exitCode : Nat
  printedDiag : Bool
  uncaught : Bool
deriving Repr, DecidableEq

namespace InstallConda

/-- External effects performed by `CondaInstaller.install`
(`scripts/install_conda.py`). -/
inductive Action where
  | download (url : String)
  | chmod (path : String)
  | runInstaller (cmd : String)
  | deleteFile (path : String)
deriving Repr, DecidableEq

/-- Starting state of an `install_conda.py` run: whether `conda --version`
succeeds, the filesystem, and oracles for the download and the installer
subprocess. -/
structure InstallState where
  conda_callable : Bool
  fs : Fs
  download_ok : Bool
  installer_ok : Bool

/-- `CondaInstaller.check_conda_installed`: the `conda --version` probe. -/
def check_conda_installed (st : InstallState) : Bool := st.conda_callable

/-- Candidate `conda.sh` locations probed by
`CondaInstaller.find_conda_path`. -/
def possible_paths : List String :=
  ["~/miniconda3/etc/profile.d/conda.sh",
   "~/anaconda3/etc/profile.d/conda.sh",
   "/opt/conda/etc/profile.d/conda.sh",
   "/usr/local/conda/etc/profile.d/conda.sh",
   "/opt/miniconda3/etc/profile.d/conda.sh",
   "/opt/anaconda3/etc/profile.d/conda.sh"]

/-- `CondaInstaller.find_conda_path`: first existing candidate, else none. -/
def find_conda_path (home : String) (fs : Fs) : Option String :=
  List.find? (fsExists fs) (possible_paths.map (expanduser home))

def base_url : String := "https://repo.anaconda.com"

/-- `CondaInstaller.get_download_url`: platform lookup.  `none` models the
`RuntimeError("Unsupported system: ...")` raise.  The machine tests are
substring tests, exactly as the Python `in` operator. -/
def get_download_url (system machine installer_type : String) : Option String :=
  if installer_type = "miniconda" then
    if system = "linux" then
      if containsSub "x86_64" machine || containsSub "amd64" machine then
        some (base_url ++ "/miniconda/Miniconda3-latest-Linux-x86_64.sh")
      else if containsSub "aarch64" machine || containsSub "arm64" machine then
        some (base_url ++ "/miniconda/Miniconda3-latest-Linux-aarch64.sh")
      else none
    else if system = "darwin" then
      if containsSub "x86_64" machine then
        some (base_url ++ "/miniconda/Miniconda3-latest-MacOSX-x86_64.sh")
      else if containsSub "arm64" machine || containsSub "aarch64" machine then
        some (base_url ++ "/miniconda/Miniconda3-latest-MacOSX-arm64.sh")
      else none
    else none
  else if installer_type = "anaconda" then
    if system = "linux" then
      if containsSub "x86_64" machine || containsSub "amd64" machine then
        some (base_url ++ "/archive/Anaconda3-2023.09-0-Linux-x86_64.sh")
      else if containsSub "aarch64" machine || containsSub "arm64" machine then
        some (base_url ++ "/archive/Anaconda3-2023.09-0-Linux-aarch64.sh")
      else none
    else if system = "darwin" then
      if containsSub "x86_64" machine then
        some (base_url ++ "/archive/Anaconda3-2023.09-0-MacOSX-x86_64.sh")
      else if containsSub "arm64" machine || containsSub "aarch64" machine then
        some (base_url ++ "/archive/Anaconda3-2023.09-0-MacOSX-arm64.sh")
      else none
    else none
  else none

/-- The block appended to a shell startup file by
`CondaInstaller.setup_shell_integration`. -/
def conda_init_block (line : String) : String :=
  "\n# Conda initialization\n" ++ line ++ "\n"

/-- One startup file update of `setup_shell_integration`: skip when the
source line is already present, otherwise append the init block. -/
def append_if_missing (line content : String) : String :=
  if containsSub line content then content
  else content ++ conda_init_block line

/-- `CondaInstaller.setup_shell_integration`: append the `source "conda.sh"`
line to `.bashrc` and `.zshrc` when those files exist and the line is not
already present.  Returns the new filesystem and the method's Bool result. -/
def setup_shell_integration (home conda_path : String) (fs : Fs) : Fs × Bool :=
  let conda_sh := conda_path ++ "/etc/profile.d/conda.sh"
  if fsExists fs conda_sh = false then (fs, false)
  else
    let conda_init_line := "source \x22" ++ conda_sh ++ "\x22"
    let bashrc := home ++ "/.bashrc"
    let fs1 : Fs :=
      match fs bashrc with
      | none => fs
      | some content =>
        fun p => if p = bashrc then some (append_if_missing conda_init_line content) else fs p
    let zshrc := home ++ "/.zshrc"
    let fs2 : Fs :=
      match fs1 zshrc with
      | none => fs1
      | some content =>
        fun p => if p = zshrc then some (append_if_missing conda_init_line content) else fs1 p
    (fs2, true)

/-- `CondaInstaller.install`: succeed immediately when conda is callable or
found at a known path; otherwise resolve the URL, download, chmod, run the
installer, delete the downloaded script and set up shell integration.
Returns (success, performed actions, final filesystem).  A `none` URL is the
`RuntimeError` caught by the surrounding try/except, which prints and
returns False. -/
def install (system machine : String) (st : InstallState)
    (installer_type : String) (install_dir : Option String) (home : String) :
    Bool × List Action × Fs :=
  if check_conda_installed st then (true, [], st.fs)
  else match find_conda_path home st.fs with
  | some _ => (true, [], st.fs)
  | none =>
    match get_download_url system machine installer_type with
    | none => (false, [], st.fs)
    | some url =>
      let installer_path := home ++ "/" ++ installer_type ++ "_installer.sh"
      if st.download_ok = false then (false, [Action.download url], st.fs)
      else
        let fs1 : Fs := fun p => if p = installer_path then some "" else st.fs p
        let dir := install_dir.getD (home ++ "/miniconda3")
        let cmd := "bash " ++ installer_path ++ " -b -p " ++ dir
        if st.installer_ok = false then
          (false, [Action.download url, Action.chmod installer_path, Action.runInstaller cmd], fs1)
        else
          let fs2 : Fs := fun p => if p = dir ++ "/etc/profile.d/conda.sh" then some "" else fs1 p
          let fs3 : Fs := fun p => if p = installer_path then none else fs2 p
          let fs4 := (setup_shell_integration home dir fs3).1
          (true,
           [Action.download url, Action.chmod installer_path,
            Action.runInstaller cmd, Action.deleteFile installer_path],
           fs4)

/-- `install_conda.py main`: exit 0 when `install` returns True, otherwise
print the failure notice and exit 1.  All exceptions inside `install` are
caught by its own try/except. -/
def install_conda_main (system machine : String) (st : InstallState)
    (installer_type : String) (install_dir : Option String) (home : String) : Outcome :=
  if (install system machine st installer_type install_dir home).1 then ⟨0, false, false⟩
  else ⟨1, true, false⟩

end InstallConda

example : InstallConda.get_download_url "linux" "x86_64" "miniconda" =
    some "https://repo.anaconda.com/miniconda/Miniconda3-latest-Linux-x86_64.sh" := by decide

example : InstallConda.get_download_url "windows" "x86_64" "miniconda" = none := by decide

namespace SetupConda

/-- One environment descriptor of `config/environments.json`
(`scripts/setup_conda.py`): the python version pin, the conda and pip
package lists, and the channel list. -/
structure EnvConfig where
  python : String
  conda_packages : List String
  pip_packages : List String
  channels : List String
deriving Repr, DecidableEq

/-- The loaded configuration: environment name → descriptor. -/
structure Config where
  environments : List (String × EnvConfig)
deriving Repr, DecidableEq

/-- The hardcoded default configuration of `CondaSetup.load_config`, used
when `config/environments.json` is absent. -/
def default_config : Config :=
  ⟨[("torchpy310",
     ⟨"3.10",
      ["pytorch", "torchvision", "torchaudio", "pytorch-cuda=11.8",
       "numpy", "pandas", "matplotlib", "jupyter"],
      ["transformers", "datasets", "accelerate", "wandb",
       "tensorboard", "scikit-learn", "seaborn"],
      ["pytorch", "nvidia", "conda-forge"]⟩),
    ("torchpy311",
     ⟨"3.11",
      ["pytorch", "torchvision", "torchaudio", "pytorch-cuda=11.8",
       "numpy", "pandas", "matplotlib", "jupyter"],
      ["transformers", "datasets", "accelerate", "wandb",
       "tensorboard", "scikit-learn", "seaborn"],
      ["pytorch", "nvidia", "conda-forge"]⟩)]⟩

/-- Errors raised by `CondaSetup`: the `ValueError` of an unknown
environment, the two `RuntimeError`s about a missing conda, and the
`CalledProcessError` of a failing external command. -/
inductive Err where
  | unknownEnvironment (name : String)
  | condaNotFoundInstallFirst
  | condaNotFound
  | commandFailed (cmd : String)
deriving Repr, DecidableEq

/-- Candidate `conda.sh` locations of `CondaSetup.find_conda_path` (four
entries, unlike the installer's six). -/
def possible_paths : List String :=
  ["~/miniconda3/etc/profile.d/conda.sh",
   "~/anaconda3/etc/profile.d/conda.sh",
   "/opt/conda/etc/profile.d/conda.sh",
   "/usr/local/conda/etc/profile.d/conda.sh"]

/-- `CondaSetup.find_conda_path`: first existing candidate, else none. -/
def find_conda_path (home : String) (fs : Fs) : Option String :=
  List.find? (fsExists fs) (possible_paths.map (expanduser home))

/-- The `conda create` command line built by `CondaSetup.setup_environment`. -/
def create_cmd (env_name python : String) : String :=
  "conda create -n " ++ env_name ++ " python=" ++ python ++ " -y"

/-- The `conda install` command line built by `CondaSetup.setup_environment`. -/
def conda_install_cmd (env_name : String) (conda_packages channels : List String) : String :=
  "conda install -n " ++ env_name ++ " " ++ String.intercalate " " conda_packages ++ " " ++
    String.intercalate " " (channels.map (fun c => "-c " ++ c)) ++ " -y"

/-- The `conda run ... pip install` command line built by
`CondaSetup.setup_environment`. -/
def pip_install_cmd (env_name : String) (pip_packages : List String) : String :=
  "conda run -n " ++ env_name ++ " pip install " ++ String.intercalate " " pip_packages

/-- `CondaSetup.setup_environment`: look up the descriptor, run the create
command, locate conda.sh, then run the conda and pip install commands when
their package lists are non-empty.  Returns the external commands issued in
order, and either success or the error that aborted the run. -/
def setup_environment (config : Config) (exec_ok : String → Bool) (home : String)
    (fs : Fs) (env_name : String) : List String × Except Err Unit :=
  match config.environments.lookup env_name with
  | none => ([], Except.error (Err.unknownEnvironment env_name))
  | some env_config =>
    let c1 := create_cmd env_name env_config.python
    if exec_ok c1 = false then ([c1], Except.error (Err.commandFailed c1))
    else match find_conda_path home fs with
    | none => ([c1], Except.error Err.condaNotFoundInstallFirst)
    | some _ =>
      if env_config.conda_packages.isEmpty then
        if env_config.pip_packages.isEmpty then ([c1], Except.ok ())
        else
          let c3 := pip_install_cmd env_name env_config.pip_packages
          if exec_ok c3 then ([c1, c3], Except.ok ())
          else ([c1, c3], Except.error (Err.commandFailed c3))
      else
        let c2 := conda_install_cmd env_name env_config.conda_packages env_config.channels
        if exec_ok c2 = false then ([c1, c2], Except.error (Err.commandFailed c2))
        else if env_config.pip_packages.isEmpty then ([c1, c2], Except.ok ())
        else
          let c3 := pip_install_cmd env_name env_config.pip_packages
          if exec_ok c3 then ([c1, c2, c3], Except.ok ())
          else ([c1, c2, c3], Except.error (Err.commandFailed c3))

/-- Fixed text of the generated activation script up to the conda.sh path. -/
def activation_header (env_name : String) : String :=
  "#!/bin/bash\n\n# Auto-generated activation script for " ++ env_name ++
    "\n# Generated by setup_conda.py\n\n# Source conda\nsource "

/-- Fixed text of the generated activation script after the conda.sh path. -/
def activation_footer (env_name : String) : String :=
  "\n\n# Activate environment\nconda activate " ++ env_name ++
    "\n\necho \x22Environment \x27" ++ env_name ++
    "\x27 activated!\x22\necho \x22Python version: $(python --version)\x22\necho \x22PyTorch version: $(python -c \x27import torch; print(torch.__version__)\x27 2>/dev/null || echo \x27PyTorch not installed\x27)\x22\n"

/-- The full content written by `CondaSetup.create_activation_script`. -/
def activation_script_content (conda_path env_name : String) : String :=
  activation_header env_name ++ conda_path ++ activation_footer env_name

/-- `CondaSetup.create_activation_script`: locate conda.sh (raising
`RuntimeError("Conda not found")` when absent, modelled by `Err.condaNotFound`)
and return the script path (`activate_<env>.sh` at the repository root) and
its content. -/
def create_activation_script (home : String) (fs : Fs) (env_name : String) :
    Except Err (String × String) :=
  match find_conda_path home fs with
  | none => Except.error Err.condaNotFound
  | some conda_path =>
    Except.ok ("activate_" ++ env_name ++ ".sh", activation_script_content conda_path env_name)

/-- The three argparse-restricted actions of `setup_conda.py`. -/
inductive SCAction where
  | setup
  | list
  | createScript
deriving Repr, DecidableEq

/-- `setup_conda.py main`: probe conda, then dispatch on the action.  The
`setup` action is wrapped in try/except (caught error, printed diagnostic,
exit 1); the `create-script` action is not, so its exception escapes main
uncaught.  Returns the process outcome and the final filesystem. -/
def setup_conda_main (config : Config) (exec_ok : String → Bool) (home : String)
    (fs : Fs) (action : SCAction) (env : String) : Outcome × Fs :=
  if exec_ok "conda --version" = false then (⟨1, true, false⟩, fs)
  else match action with
  | SCAction.list => (⟨0, false, false⟩, fs)
  | SCAction.setup =>
    match (setup_environment config exec_ok home fs env).2 with
    | Except.error _ => (⟨1, true, false⟩, fs)
    | Except.ok _ =>
      match create_activation_script home fs env with
      | Except.error _ => (⟨1, true, false⟩, fs)
      | Except.ok pc => (⟨0, false, false⟩, fun q => if q = pc.1 then some pc.2 else fs q)
  | SCAction.createScript =>
    match create_activation_script home fs env with
    | Except.error _ => (⟨1, false, true⟩, fs)
    | Except.ok pc => (⟨0, false, false⟩, fun q => if q = pc.1 then some pc.2 else fs q)

end SetupConda

namespace InstallRequirements

/-- Candidate interpreter locations of `install_requirements`
(`bin/install_requirements.py`), the first two built with
`os.path.expanduser` at list-construction time. -/
def conda_paths (home : String) : List String :=
  [expanduser home "~/miniconda3/envs/torchpy310/bin/python",
   expanduser home "~/anaconda3/envs/torchpy310/bin/python",
   "/opt/conda/envs/torchpy310/bin/python"]

/-- The probe loop over candidate interpreters: returns the first existing
candidate (if any) and the list of candidates probed, in order, up to and
including the first hit. -/
def probeFirst (exists_fn : String → Bool) : List String → Option String × List String
  | [] => (none, [])
  | p :: rest =>
    if exists_fn p then (some p, [p])
    else
      let r := probeFirst exists_fn rest
      (r.1, p :: r.2)

/-- Observable behaviour of one `install_requirements` call: its Bool
result, the interpreter used for the pip command (none when no command was
run), the candidate paths probed, and the argv commands invoked. -/
structure RunResult where
  success : Bool
  python_used : Option String
  probed : List String
  cmds : List (List String)
deriving Repr, DecidableEq

/-- `install_requirements`: fail when the manifest does not exist; otherwise
resolve the interpreter (explicit path, or first existing candidate — each
re-expanded in the loop body — falling back to `python3`) and run
`<python> -m pip install -r <manifest>`. -/
def install_requirements (home : String) (exists_fn : String → Bool)
    (exec_ok : List String → Bool) (requirements_file : String)
    (python_path : Option String) : RunResult :=
  if exists_fn requirements_file = false then ⟨false, none, [], []⟩
  else
    let resolved : String × List String :=
      match python_path with
      | some p => (p, [])
      | none =>
        let r := probeFirst exists_fn ((conda_paths home).map (expanduser home))
        (r.1.getD "python3", r.2)
    let cmd := [resolved.1, "-m", "pip", "install", "-r", requirements_file]
    if exec_ok cmd then ⟨true, some resolved.1, resolved.2, [cmd]⟩
    else ⟨false, some resolved.1, resolved.2, [cmd]⟩

/-- `install_requirements.py main`: exit 0 when `install_requirements`
returns True, otherwise print the failure notice and exit 1. -/
def install_requirements_main (home : String) (exists_fn : String → Bool)
    (exec_ok : List String → Bool) (requirements_file : String)
    (python_path : Option String) : Outcome :=
  if (install_requirements home exists_fn exec_ok requirements_file python_path).success then
    ⟨0, false, false⟩
  else ⟨1, true, false⟩

end InstallRequirements

/-- The platform lookup table as the amended claim C1 describes it: flavor
miniconda or anaconda; system linux with a machine string containing
x86_64, amd64, aarch64 or arm64; or system darwin with a machine string
containing x86_64, arm64 or aarch64 (darwin has no amd64 entry). -/
def supported_platform_table (system machine installer_type : String) : Bool :=
  (decide (installer_type = "miniconda") || decide (installer_type = "anaconda")) &&
  ((decide (system = "linux") &&
      (containsSub "x86_64" machine || containsSub "amd64" machine ||
       containsSub "aarch64" machine || containsSub "arm64" machine)) ||
   (decide (system = "darwin") &&
      (containsSub "x86_64" machine || containsSub "arm64" machine ||
       containsSub "aarch64" machine)))

theorem containsSub_refl (n : String) : containsSub n n = true := by
  simp only [containsSub, decide_eq_true_eq]
  exact ⟨[], [], by simp⟩

theorem containsSub_append_right (n a b : String) (h : containsSub n b = true) :
    containsSub n (a ++ b) = true := by
  simp only [containsSub, decide_eq_true_eq] at h ⊢
  obtain ⟨s, t, hst⟩ := h
  refine ⟨a.data ++ s, t, ?_⟩
  rw [String.data_append, ← hst]
  simp

theorem containsSub_append_left (n a b : String) (h : containsSub n a = true) :
    containsSub n (a ++ b) = true := by
  simp only [containsSub, decide_eq_true_eq] at h ⊢
  obtain ⟨s, t, hst⟩ := h
  refine ⟨s, t ++ b.data, ?_⟩
  rw [String.data_append, ← hst]
  simp

theorem bashrc_ne_zshrc (home : String) : home ++ "/.bashrc" ≠ home ++ "/.zshrc" := by
  intro h
  have h2 := congrArg String.data h
  rw [String.data_append, String.data_append] at h2
  exact absurd (List.append_cancel_left h2) (by decide)

/-- Claim C1 as amended (corrected): for every triple in the actual lookup
table — flavor miniconda/anaconda, linux with machine containing
x86_64/amd64/aarch64/arm64, darwin with machine containing
x86_64/arm64/aarch64 — `get_download_url` returns a non-empty URL starting
with "https://"; for every other (system, machine, flavor) triple it raises
UnsupportedPlatform (returns no URL). -/
theorem get_download_url_platform_characterization (system machine installer_type : String) :
    (supported_platform_table system machine installer_type = true →
      (InstallConda.get_download_url system machine installer_type).isSome = true ∧
      (InstallConda.get_download_url system machine installer_type).getD "" ≠ "" ∧
      ((InstallConda.get_download_url system machine installer_type).getD "").take 8 =
        "https://") ∧
    (supported_platform_table system machine installer_type = false →
      InstallConda.get_download_url system machine installer_type = none) := by
  by_cases hf : installer_type = "miniconda" <;>
  by_cases hg : installer_type = "anaconda" <;>
  by_cases hl : system = "linux" <;>
  by_cases hd : system = "darwin" <;>
  cases hx : containsSub "x86_64" machine <;>
  cases ha : containsSub "amd64" machine <;>
  cases hr : containsSub "arm64" machine <;>
  cases hh : containsSub "aarch64" machine <;>
  simp_all [InstallConda.get_download_url, supported_platform_table,
    InstallConda.base_url] <;>
  decide

/-- Claim C1 witness: the (linux, x86_64, miniconda) entry yields a
non-empty https URL. -/
theorem get_download_url_platform_characterization_witness :
    supported_platform_table "linux" "x86_64" "miniconda" = true ∧
    ((InstallConda.get_download_url "linux" "x86_64" "miniconda").isSome = true ∧
     (InstallConda.get_download_url "linux" "x86_64" "miniconda").getD "" ≠ "" ∧
     ((InstallConda.get_download_url "linux" "x86_64" "miniconda").getD "").take 8 =
       "https://") :=
  ⟨by decide,
   (get_download_url_platform_characterization "linux" "x86_64" "miniconda").1 (by decide)⟩

/-- Claim C1 counterexample: (darwin, amd64, miniconda) lies in the claim's
cross-product table linux/darwin × x86_64/amd64/aarch64/arm64, yet the code
raises UnsupportedPlatform for it — the darwin branch never tests "amd64". -/
theorem get_download_url_darwin_amd64_none :
    InstallConda.get_download_url "darwin" "amd64" "miniconda" = none := by decide

/-- Claim C3 (confirmed): when conda is already callable, or already present
at one of the fixed candidate paths, `install` performs no download, no
chmod, no installer run and no startup-file append (its action list is
empty), returns success, and leaves the filesystem unchanged. -/
theorem install_idempotent_when_present (system machine home installer_type : String)
    (idir : Option String) (st : InstallConda.InstallState)
    (h : st.conda_callable = true ∨ (InstallConda.find_conda_path home st.fs).isSome = true) :
    InstallConda.install system machine st installer_type idir home = (true, [], st.fs) := by
  rcases h with h | h
  · simp [InstallConda.install, InstallConda.check_conda_installed, h]
  · by_cases hc : st.conda_callable = true
    · simp [InstallConda.install, InstallConda.check_conda_installed, hc]
    · obtain ⟨p, hp⟩ := Option.isSome_iff_exists.mp h
      simp [InstallConda.install, InstallConda.check_conda_installed, hc, hp]

/-- Claim C3 witness at a concrete state where conda is callable. -/
theorem install_idempotent_when_present_witness :
    InstallConda.install "linux" "x86_64"
      ⟨true, fun _ => none, true, true⟩ "miniconda" none "/home/user" =
      (true, [], (⟨true, fun _ => none, true, true⟩ : InstallConda.InstallState).fs) :=
  install_idempotent_when_present "linux" "x86_64" "/home/user" "miniconda" none
    ⟨true, fun _ => none, true, true⟩ (Or.inl rfl)

/-- Claim C4 (confirmed): the per-file shell-integration append leaves a file
unchanged when the source line is already a substring of its content,
appends the init block exactly once otherwise, and applying it twice equals
applying it once. -/
theorem shell_integration_append_idempotent (line content : String) :
    (containsSub line content = true →
      InstallConda.append_if_missing line content = content) ∧
    (containsSub line content = false →
      InstallConda.append_if_missing line content =
        content ++ InstallConda.conda_init_block line) ∧
    InstallConda.append_if_missing line (InstallConda.append_if_missing line content) =
      InstallConda.append_if_missing line content := by
  refine ⟨fun h => by simp [InstallConda.append_if_missing, h],
          fun h => by simp [InstallConda.append_if_missing, h], ?_⟩
  by_cases h0 : containsSub line content = true
  · simp [InstallConda.append_if_missing, h0]
  · have h1 : containsSub line content = false := by
      cases hcc : containsSub line content
      · rfl
      · exact absurd hcc h0
    have hb : containsSub line (content ++ InstallConda.conda_init_block line) = true := by
      apply containsSub_append_right
      unfold InstallConda.conda_init_block
      apply containsSub_append_left
      apply containsSub_append_right
      exact containsSub_refl line
    simp [InstallConda.append_if_missing, h1, hb]

/-- Claim C4 witness: a file already holding the line is unchanged, and a
double append to an empty file equals a single append. -/
theorem shell_integration_append_idempotent_witness :
    InstallConda.append_if_missing "source x" "abc source x def" = "abc source x def" ∧
    InstallConda.append_if_missing "source x" (InstallConda.append_if_missing "source x" "") =
      InstallConda.append_if_missing "source x" "" :=
  ⟨(shell_integration_append_idempotent "source x" "abc source x def").1 (by decide),
   (shell_integration_append_idempotent "source x" "").2.2⟩

/-- Claim C9 (confirmed): `setup_shell_integration` never creates a missing
startup file — an absent `.bashrc` or `.zshrc` stays absent — and when both
dotfiles are absent the whole filesystem is left unchanged (no source line
is written anywhere). -/
theorem shell_integration_preserves_absent_dotfiles (home conda_path : String) (fs : Fs) :
    (fs (home ++ "/.bashrc") = none →
      (InstallConda.setup_shell_integration home conda_path fs).1 (home ++ "/.bashrc") = none) ∧
    (fs (home ++ "/.zshrc") = none →
      (InstallConda.setup_shell_integration home conda_path fs).1 (home ++ "/.zshrc") = none) ∧
    (fs (home ++ "/.bashrc") = none → fs (home ++ "/.zshrc") = none →
      ∀ p, (InstallConda.setup_shell_integration home conda_path fs).1 p = fs p) := by
  by_cases hcs : fsExists fs (conda_path ++ "/etc/profile.d/conda.sh") = false
  · simp [InstallConda.setup_shell_integration, hcs]
  · refine ⟨fun hb => ?_, fun hz => ?_, fun hb hz p => ?_⟩
    · simp only [InstallConda.setup_shell_integration, hcs, if_false, ite_false]
      rw [hb]
      cases hz : fs (home ++ "/.zshrc") with
      | none => simp [hz, hb]
      | some c => simp [hz, hb, bashrc_ne_zshrc home]
    · simp only [InstallConda.setup_shell_integration, hcs, if_false, ite_false]
      cases hb : fs (home ++ "/.bashrc") with
      | none => simp [hb, hz]
      | some c =>
        simp only [hb]
        have hz1 : (if home ++ "/.zshrc" = home ++ "/.bashrc"
            then some (InstallConda.append_if_missing
              ("source \x22" ++ (conda_path ++ "/etc/profile.d/conda.sh") ++ "\x22") c)
            else fs (home ++ "/.zshrc")) = none := by
          rw [if_neg (Ne.symm (bashrc_ne_zshrc home))]
          exact hz
        simp [hz1, hz, Ne.symm (bashrc_ne_zshrc home)]
    · simp only [InstallConda.setup_shell_integration, hcs, if_false, ite_false]
      simp [hb, hz]

/-- Claim C9 witness: with conda.sh present and neither dotfile present,
dotfiles stay absent and an arbitrary path is untouched. -/
theorem shell_integration_preserves_absent_dotfiles_witness :
    (InstallConda.setup_shell_integration "/h" "/c"
      (fun p => if p = "/c/etc/profile.d/conda.sh" then some "" else none)).1
        ("/h" ++ "/.bashrc") = none ∧
    (InstallConda.setup_shell_integration "/h" "/c"
      (fun p => if p = "/c/etc/profile.d/conda.sh" then some "" else none)).1
        "/anywhere" =
      (fun p : String => if p = "/c/etc/profile.d/conda.sh" then some "" else none)
        "/anywhere" :=
  ⟨(shell_integration_preserves_absent_dotfiles "/h" "/c"
      (fun p => if p = "/c/etc/profile.d/conda.sh" then some "" else none)).1 (by decide),
   (shell_integration_preserves_absent_dotfiles "/h" "/c"
      (fun p => if p = "/c/etc/profile.d/conda.sh" then some "" else none)).2.2
     (by decide) (by decide) "/anywhere"⟩

/-- The configuration of the claim C2 end-to-end scenario: environment
"envA", python "3.10", conda list ["numpy"], pip list ["requests"],
channels ["conda-forge"]. -/
def envA_config : SetupConda.Config :=
  ⟨[("envA", ⟨"3.10", ["numpy"], ["requests"], ["conda-forge"]⟩)]⟩

/-- Claim C2 (confirmed): under the scenario configuration, with conda.sh
present and all commands succeeding, setup for "envA" issues exactly the
create, conda-install and pip-install commands in that order with the
scenario's literal values, and the activation script is produced with a
content containing a source line and a line activating "envA". -/
theorem setup_envA_three_commands_and_script (exec_ok : String → Bool) (home : String)
    (fs : Fs) (conda_path : String)
    (hfind : SetupConda.find_conda_path home fs = some conda_path)
    (h1 : exec_ok "conda create -n envA python=3.10 -y" = true)
    (h2 : exec_ok "conda install -n envA numpy -c conda-forge -y" = true)
    (h3 : exec_ok "conda run -n envA pip install requests" = true) :
    SetupConda.setup_environment envA_config exec_ok home fs "envA" =
      (["conda create -n envA python=3.10 -y",
        "conda install -n envA numpy -c conda-forge -y",
        "conda run -n envA pip install requests"], Except.ok ()) ∧
    SetupConda.create_activation_script home fs "envA" =
      Except.ok ("activate_envA.sh", SetupConda.activation_script_content conda_path "envA") ∧
    containsSub "source " (SetupConda.activation_script_content conda_path "envA") = true ∧
    containsSub "conda activate envA"
      (SetupConda.activation_script_content conda_path "envA") = true := by
  have e1 : SetupConda.create_cmd "envA" "3.10" = "conda create -n envA python=3.10 -y" := by
    decide
  have e2 : SetupConda.conda_install_cmd "envA" ["numpy"] ["conda-forge"] =
      "conda install -n envA numpy -c conda-forge -y" := by decide
  have e3 : SetupConda.pip_install_cmd "envA" ["requests"] =
      "conda run -n envA pip install requests" := by decide
  refine ⟨?_, ?_, ?_, ?_⟩
  · simp [SetupConda.setup_environment, envA_config, e1, e2, e3, h1, h2, h3, hfind]
  · simp [SetupConda.create_activation_script, hfind]
  · unfold SetupConda.activation_script_content
    apply containsSub_append_left
    apply containsSub_append_left
    decide
  · unfold SetupConda.activation_script_content
    apply containsSub_append_right
    decide

/-- Claim C2 witness at a concrete filesystem and an all-green command
oracle. -/
theorem setup_envA_three_commands_and_script_witness :
    SetupConda.setup_environment envA_config (fun _ => true) "/h"
      (fun p => if p = "/opt/conda/etc/profile.d/conda.sh" then some "" else none) "envA" =
      (["conda create -n envA python=3.10 -y",
        "conda install -n envA numpy -c conda-forge -y",
        "conda run -n envA pip install requests"], Except.ok ()) ∧
    SetupConda.create_activation_script "/h"
      (fun p => if p = "/opt/conda/etc/profile.d/conda.sh" then some "" else none) "envA" =
      Except.ok ("activate_envA.sh",
        SetupConda.activation_script_content "/opt/conda/etc/profile.d/conda.sh" "envA") ∧
    containsSub "source "
      (SetupConda.activation_script_content "/opt/conda/etc/profile.d/conda.sh" "envA") = true ∧
    containsSub "conda activate envA"
      (SetupConda.activation_script_content "/opt/conda/etc/profile.d/conda.sh" "envA") = true :=
  setup_envA_three_commands_and_script (fun _ => true) "/h"
    (fun p => if p = "/opt/conda/etc/profile.d/conda.sh" then some "" else none)
    "/opt/conda/etc/profile.d/conda.sh" (by decide) rfl rfl rfl

/-- Claim C5 (confirmed): setting up an environment name that is not a key of
the configuration fails with the UnknownEnvironment error and issues zero
external commands. -/
theorem setup_unknown_environment_no_commands (config : SetupConda.Config)
    (exec_ok : String → Bool) (home : String) (fs : Fs) (env_name : String)
    (h : config.environments.lookup env_name = none) :
    SetupConda.setup_environment config exec_ok home fs env_name =
      ([], Except.error (SetupConda.Err.unknownEnvironment env_name)) := by
  simp [SetupConda.setup_environment, h]

/-- Claim C5 witness: "envX" is not configured in the default configuration. -/
theorem setup_unknown_environment_no_commands_witness :
    SetupConda.setup_environment SetupConda.default_config (fun _ => true) "/h"
      (fun _ => none) "envX" =
      ([], Except.error (SetupConda.Err.unknownEnvironment "envX")) :=
  setup_unknown_environment_no_commands SetupConda.default_config (fun _ => true) "/h"
    (fun _ => none) "envX" (by decide)

/-- Claim C6 (confirmed): a missing manifest makes the requirements installer
fail with ManifestNotFound before any interpreter candidate is probed and
before any subprocess runs. -/
theorem install_requirements_missing_manifest (home : String) (exists_fn : String → Bool)
    (exec_ok : List String → Bool) (requirements_file : String) (python_path : Option String)
    (h : exists_fn requirements_file = false) :
    InstallRequirements.install_requirements home exists_fn exec_ok requirements_file
      python_path = ⟨false, none, [], []⟩ := by
  simp [InstallRequirements.install_requirements, h]

/-- Claim C6 witness on an empty filesystem. -/
theorem install_requirements_missing_manifest_witness :
    InstallRequirements.install_requirements "/h" (fun _ => false) (fun _ => true)
      "requirements.txt" none = ⟨false, none, [], []⟩ :=
  install_requirements_missing_manifest "/h" (fun _ => false) (fun _ => true)
    "requirements.txt" none rfl

theorem probeFirst_fst (exists_fn : String → Bool) (l : List String) :
    (InstallRequirements.probeFirst exists_fn l).1 = l.find? exists_fn := by
  induction l with
  | nil => rfl
  | cons p rest ih =>
    by_cases hp : exists_fn p = true
    · simp [InstallRequirements.probeFirst, List.find?, hp]
    · have hp1 : exists_fn p = false := by
        cases hx : exists_fn p
        · rfl
        · exact absurd hx hp
      simp [InstallRequirements.probeFirst, List.find?, hp1, ih]

/-- Claim C7 (confirmed): with the manifest present, an explicit interpreter
path is used as given with no candidate probed, and with no interpreter
given the first existing candidate of the fixed ordered list is selected,
falling back to "python3" when none exists. -/
theorem install_requirements_interpreter_resolution (home : String)
    (exists_fn : String → Bool) (exec_ok : List String → Bool) (requirements_file : String)
    (h : exists_fn requirements_file = true) :
    (∀ python_path,
      (InstallRequirements.install_requirements home exists_fn exec_ok requirements_file
        (some python_path)).python_used = some python_path ∧
      (InstallRequirements.install_requirements home exists_fn exec_ok requirements_file
        (some python_path)).probed = []) ∧
    (InstallRequirements.install_requirements home exists_fn exec_ok requirements_file
        none).python_used =
      some ((List.find? exists_fn
        [expanduser home (expanduser home "~/miniconda3/envs/torchpy310/bin/python"),
         expanduser home (expanduser home "~/anaconda3/envs/torchpy310/bin/python"),
         expanduser home "/opt/conda/envs/torchpy310/bin/python"]).getD "python3") := by
  have hni : ¬ exists_fn requirements_file = false := by simp [h]
  constructor
  · intro python_path
    constructor <;>
    · simp only [InstallRequirements.install_requirements, if_neg hni]
      split <;> simp
  · simp only [InstallRequirements.install_requirements, if_neg hni]
    split <;>
    simp [probeFirst_fst, InstallRequirements.conda_paths]

/-- Claim C7 witness: explicit path respected; with nothing on disk but the
manifest, the fallback "python3" is chosen. -/
theorem install_requirements_interpreter_resolution_witness :
    (InstallRequirements.install_requirements "/h" (fun p => p == "req.txt") (fun _ => true)
      "req.txt" (some "/usr/bin/python")).python_used = some "/usr/bin/python" ∧
    (InstallRequirements.install_requirements "/h" (fun p => p == "req.txt") (fun _ => true)
      "req.txt" (some "/usr/bin/python")).probed = [] ∧
    (InstallRequirements.install_requirements "/h" (fun p => p == "req.txt") (fun _ => true)
      "req.txt" none).python_used =
      some ((List.find? (fun p => p == "req.txt")
        [expanduser "/h" (expanduser "/h" "~/miniconda3/envs/torchpy310/bin/python"),
         expanduser "/h" (expanduser "/h" "~/anaconda3/envs/torchpy310/bin/python"),
         expanduser "/h" "/opt/conda/envs/torchpy310/bin/python"]).getD "python3") :=
  ⟨((install_requirements_interpreter_resolution "/h" (fun p => p == "req.txt")
      (fun _ => true) "req.txt" (by decide)).1 "/usr/bin/python").1,
   ((install_requirements_interpreter_resolution "/h" (fun p => p == "req.txt")
      (fun _ => true) "req.txt" (by decide)).1 "/usr/bin/python").2,
   (install_requirements_interpreter_resolution "/h" (fun p => p == "req.txt")
      (fun _ => true) "req.txt" (by decide)).2⟩

theorem setup_conda_main_fst_cases (config : SetupConda.Config) (exec_ok : String → Bool)
    (home : String) (fs : Fs) (action : SetupConda.SCAction) (env : String) :
    (SetupConda.setup_conda_main config exec_ok home fs action env).1 = ⟨0, false, false⟩ ∨
    (SetupConda.setup_conda_main config exec_ok home fs action env).1 = ⟨1, true, false⟩ ∨
    ((SetupConda.setup_conda_main config exec_ok home fs action env).1 = ⟨1, false, true⟩ ∧
      action = SetupConda.SCAction.createScript) := by
  unfold SetupConda.setup_conda_main
  by_cases hcv : exec_ok "conda --version" = false
  · simp [hcv]
  · rw [if_neg hcv]
    cases action with
    | list => simp
    | setup =>
      cases hse : (SetupConda.setup_environment config exec_ok home fs env).2 with
      | error e => simp
      | ok u =>
        cases hca : SetupConda.create_activation_script home fs env with
        | error e => simp
        | ok pc => simp
    | createScript =>
      cases hca : SetupConda.create_activation_script home fs env with
      | error e => simp
      | ok pc => simp

/-- Claim C8 as amended (corrected): in all three utilities every reported
failure exits with status 1, and the failure is caught at the entry point
with a printed diagnostic — except the environment-setup utility's
create-script action, whose failure propagates as an uncaught exception
(the interpreter prints a traceback and exits 1, but the script's own
handler never runs). -/
theorem top_level_error_policy_amended
    (config : SetupConda.Config) (exec_ok : String → Bool) (home env : String) (fs : Fs)
    (action : SetupConda.SCAction)
    (rhome requirements_file : String) (exists_fn : String → Bool)
    (exec_okl : List String → Bool) (python_path : Option String)
    (system machine installer_type ihome : String) (st : InstallConda.InstallState)
    (idir : Option String) :
    ((InstallRequirements.install_requirements_main rhome exists_fn exec_okl
        requirements_file python_path).exitCode ≠ 0 →
      InstallRequirements.install_requirements_main rhome exists_fn exec_okl
        requirements_file python_path = ⟨1, true, false⟩) ∧
    ((InstallConda.install_conda_main system machine st installer_type idir ihome).exitCode ≠ 0 →
      InstallConda.install_conda_main system machine st installer_type idir ihome =
        ⟨1, true, false⟩) ∧
    ((SetupConda.setup_conda_main config exec_ok home fs action env).1.exitCode ≠ 0 →
      (SetupConda.setup_conda_main config exec_ok home fs action env).1.exitCode = 1) ∧
    (action ≠ SetupConda.SCAction.createScript →
      (SetupConda.setup_conda_main config exec_ok home fs action env).1.exitCode ≠ 0 →
      (SetupConda.setup_conda_main config exec_ok home fs action env).1 = ⟨1, true, false⟩) ∧
    ((SetupConda.setup_conda_main config exec_ok home fs action env).1.uncaught = true →
      action = SetupConda.SCAction.createScript) := by
  refine ⟨?_, ?_, ?_, ?_, ?_⟩
  · intro hne
    cases hs : (InstallRequirements.install_requirements rhome exists_fn exec_okl
        requirements_file python_path).success
    · simp [InstallRequirements.install_requirements_main, hs]
    · simp [InstallRequirements.install_requirements_main, hs] at hne
  · intro hne
    cases hi : (InstallConda.install system machine st installer_type idir ihome).1
    · simp [InstallConda.install_conda_main, hi]
    · simp [InstallConda.install_conda_main, hi] at hne
  · intro hne
    rcases setup_conda_main_fst_cases config exec_ok home fs action env with hc | hc | ⟨hc, _⟩ <;>
    simp [hc] at hne ⊢
  · intro hact hne
    rcases setup_conda_main_fst_cases config exec_ok home fs action env with hc | hc | ⟨hc, ha⟩
    · simp [hc] at hne
    · exact hc
    · exact absurd ha hact
  · intro hu
    rcases setup_conda_main_fst_cases config exec_ok home fs action env with hc | hc | ⟨hc, ha⟩
    · simp [hc] at hu
    · simp [hc] at hu
    · exact ha

/-- Claim C8 witness: a missing manifest is caught and reported with exit 1,
and a setup failure on an unknown environment is caught and reported with
exit 1. -/
theorem top_level_error_policy_amended_witness :
    InstallRequirements.install_requirements_main "/h" (fun _ => false) (fun _ => true)
      "requirements.txt" none = ⟨1, true, false⟩ ∧
    (SetupConda.setup_conda_main envA_config (fun _ => true) "/h" (fun _ => none)
      SetupConda.SCAction.setup "nope").1 = ⟨1, true, false⟩ :=
  ⟨(top_level_error_policy_amended envA_config (fun _ => true) "/h" "nope" (fun _ => none)
      SetupConda.SCAction.setup "/h" "requirements.txt" (fun _ => false) (fun _ => true) none
      "linux" "x86_64" "miniconda" "/h" ⟨true, fun _ => none, true, true⟩ none).1 (by decide),
   (top_level_error_policy_amended envA_config (fun _ => true) "/h" "nope" (fun _ => none)
      SetupConda.SCAction.setup "/h" "requirements.txt" (fun _ => false) (fun _ => true) none
      "linux" "x86_64" "miniconda" "/h" ⟨true, fun _ => none, true, true⟩ none).2.2.2.1
     (by decide) (by decide)⟩

/-- Claim C8 counterexample: a create-script failure (conda.sh absent) is not
caught at the entry point — the outcome is exit 1 with no handler-printed
diagnostic and an uncaught exception — refuting the claim that every failure
of every action is caught and reported by the utility itself. -/
theorem create_script_failure_uncaught :
    (SetupConda.setup_conda_main SetupConda.default_config (fun _ => true) "/home/user"
      (fun _ => none) SetupConda.SCAction.createScript "torchpy310").1 =
      ⟨1, false, true⟩ := by decide

/-- Claim C10 (confirmed): when none of the four fixed conda.sh candidate
paths exists, create-activation-script fails with the "Conda not found"
error — even when the conda binary itself is callable, so the utility's
initial presence check passed — and no activation script is written (the
filesystem after the create-script action is unchanged). -/
theorem create_activation_script_conda_missing (config : SetupConda.Config)
    (exec_ok : String → Bool) (home env : String) (fs : Fs)
    (hconda : exec_ok "conda --version" = true)
    (habs : ∀ q ∈ SetupConda.possible_paths.map (expanduser home), fs q = none) :
    SetupConda.create_activation_script home fs env =
      Except.error SetupConda.Err.condaNotFound ∧
    (SetupConda.setup_conda_main config exec_ok home fs
      SetupConda.SCAction.createScript env).1 = ⟨1, false, true⟩ ∧
    ∀ p, (SetupConda.setup_conda_main config exec_ok home fs
      SetupConda.SCAction.createScript env).2 p = fs p := by
  have hfind : SetupConda.find_conda_path home fs = none := by
    unfold SetupConda.find_conda_path
    exact List.find?_eq_none.mpr (fun x hx => by simp [fsExists, habs x hx])
  have hcas : SetupConda.create_activation_script home fs env =
      Except.error SetupConda.Err.condaNotFound := by
    simp [SetupConda.create_activation_script, hfind]
  have hmain : SetupConda.setup_conda_main config exec_ok home fs
      SetupConda.SCAction.createScript env = (⟨1, false, true⟩, fs) := by
    unfold SetupConda.setup_conda_main
    rw [if_neg (by simp [hconda]), hcas]
  exact ⟨hcas, by rw [hmain], fun p => by rw [hmain]⟩

/-- Claim C10 witness on an empty filesystem with conda callable. -/
theorem create_activation_script_conda_missing_witness :
    SetupConda.create_activation_script "/hw" (fun _ => none) "envZ" =
      Except.error SetupConda.Err.condaNotFound ∧
    (SetupConda.setup_conda_main SetupConda.default_config (fun _ => true) "/hw"
      (fun _ => none) SetupConda.SCAction.createScript "envZ").2 "/hw/anyfile" = none :=
  ⟨(create_activation_script_conda_missing SetupConda.default_config (fun _ => true)
      "/hw" "envZ" (fun _ => none) rfl (fun _ _ => rfl)).1,
   (create_activation_script_conda_missing SetupConda.default_config (fun _ => true)
      "/hw" "envZ" (fun _ => none) rfl (fun _ _ => rfl)).2.2 "/hw/anyfile"⟩
